import Mathlib

/-!
Verification of the blink-back channel registry and transaction builder
(`src/server.ts`) against its natural-language specification.

The server code is shallowly embedded: JavaScript strings are `String`,
JavaScript numbers (IEEE-754 binary64) are modelled as the exact rational
value they denote (`ℚ`), with an explicit round-to-nearest-even function
for the one arithmetic operation that rounds; the persisted JSON file is a
`FileContent` state threaded through the operations; the Solana and URL
platform calls are modelled from their documented behaviour where noted.
-/

namespace BlinkBack

/-- The JavaScript whitespace class: the characters matched by the regex
class `\s` (which is also the set removed by `String.prototype.trim`):
tab, line feed, vertical tab, form feed, carriage return, space, NBSP,
Ogham space mark, the U+2000..U+200A range, line / paragraph separator,
narrow no-break space, medium mathematical space, ideographic space and
the byte-order mark. -/
def isJsWs (c : Char) : Bool :=
  let n := c.toNat
  decide (n = 9) || decide (n = 10) || decide (n = 11) || decide (n = 12) ||
  decide (n = 13) || decide (n = 32) || decide (n = 160) || decide (n = 5760) ||
  (decide (8192 ≤ n) && decide (n ≤ 8202)) || decide (n = 8232) ||
  decide (n = 8233) || decide (n = 8239) || decide (n = 8287) ||
  decide (n = 12288) || decide (n = 65279)

theorem isJsWs_iff (c : Char) :
    isJsWs c = true ↔ (c.toNat = 9 ∨ c.toNat = 10 ∨ c.toNat = 11 ∨ c.toNat = 12 ∨
      c.toNat = 13 ∨ c.toNat = 32 ∨ c.toNat = 160 ∨ c.toNat = 5760 ∨
      (8192 ≤ c.toNat ∧ c.toNat ≤ 8202) ∨ c.toNat = 8232 ∨ c.toNat = 8233 ∨
      c.toNat = 8239 ∨ c.toNat = 8287 ∨ c.toNat = 12288 ∨ c.toNat = 65279) := by
  simp [isJsWs, Bool.or_eq_true, Bool.and_eq_true, decide_eq_true_eq, or_assoc]

/-- Model of `String.prototype.toLowerCase`, restricted to the ASCII range; outside
`A`–`Z` the character is returned unchanged.  The registry only ever
lowercases channel names drawn from the validated ASCII character class,
on which this agrees with the full Unicode lowercasing the platform does. -/
def jsLower (c : Char) : Char :=
  if h : 65 ≤ c.toNat ∧ c.toNat ≤ 90 then
    Char.ofNatAux (c.toNat + 32) (Or.inl (by omega))
  else c

theorem jsLower_toNat (c : Char) :
    (jsLower c).toNat = if 65 ≤ c.toNat ∧ c.toNat ≤ 90 then c.toNat + 32 else c.toNat := by
  unfold jsLower
  split
  case isTrue h => rfl
  case isFalse h => rfl

theorem isJsWs_jsLower (c : Char) : isJsWs (jsLower c) = isJsWs c := by
  have h := jsLower_toNat c
  by_cases h65 : 65 ≤ c.toNat ∧ c.toNat ≤ 90
  · rw [if_pos h65] at h
    have l1 : isJsWs c = false := by
      cases hb : isJsWs c with
      | false => rfl
      | true => rw [isJsWs_iff] at hb; omega
    have l2 : isJsWs (jsLower c) = false := by
      cases hb : isJsWs (jsLower c) with
      | false => rfl
      | true => rw [isJsWs_iff] at hb; omega
    rw [l1, l2]
  · rw [if_neg h65] at h
    simp only [isJsWs, h]

theorem jsLower_of_ws {c : Char} (hw : isJsWs c = true) : jsLower c = c := by
  rw [isJsWs_iff] at hw
  unfold jsLower
  rw [dif_neg (by omega)]

/-- Model of `String.prototype.trim`: strip the JavaScript whitespace class from
both ends of the string. -/
def jsTrim (s : String) : String :=
  String.mk (((s.toList.dropWhile isJsWs).reverse.dropWhile isJsWs).reverse)

/-- Helper for `collapseWs`: the boolean records whether the scan is
currently inside a whitespace run (whose hyphen has already been
emitted). -/
def collapseWsAux : Bool → List Char → List Char
  | _, [] => []
  | inRun, c :: rest =>
    if isJsWs c then
      if inRun then collapseWsAux true rest else '-' :: collapseWsAux true rest
    else c :: collapseWsAux false rest

/-- The global replacement `replace(/\s+/g, '-')`: every maximal run of
whitespace characters becomes a single hyphen. -/
def collapseWs (l : List Char) : List Char := collapseWsAux false l

theorem collapseWsAux_true (l : List Char) :
    collapseWsAux true l = collapseWs (l.dropWhile isJsWs) := by
  induction l with
  | nil => rfl
  | cons c t ih =>
    by_cases h : isJsWs c = true
    · rw [List.dropWhile_cons_of_pos h]
      unfold collapseWsAux
      rw [if_pos h, if_pos rfl, ih]
    · rw [List.dropWhile_cons_of_neg (by simp [h])]
      show collapseWsAux true (c :: t) = collapseWsAux false (c :: t)
      unfold collapseWsAux
      rw [if_neg (by simp_all), if_neg (by simp_all)]

theorem collapseWs_cons_ws {c : Char} (l : List Char) (h : isJsWs c = true) :
    collapseWs (c :: l) = '-' :: collapseWs (l.dropWhile isJsWs) := by
  show collapseWsAux false (c :: l) = _
  unfold collapseWsAux
  rw [if_pos h, if_neg (by simp), collapseWsAux_true]

theorem collapseWs_cons_not_ws {c : Char} (l : List Char) (h : isJsWs c = false) :
    collapseWs (c :: l) = c :: collapseWs l := by
  show collapseWsAux false (c :: l) = _
  unfold collapseWsAux
  rw [if_neg (by simp [h])]
  rfl

theorem dropWhile_ws_append {r : List Char} (l : List Char)
    (h : ∀ x ∈ r, isJsWs x = true) :
    (r ++ l).dropWhile isJsWs = l.dropWhile isJsWs := by
  induction r with
  | nil => rfl
  | cons c r ih =>
    rw [List.cons_append, List.dropWhile_cons_of_pos (h c (by simp))]
    exact ih (fun x hx => h x (by simp [hx]))

theorem collapseWs_ws_append {r : List Char} (l : List Char) (hne : r ≠ [])
    (h : ∀ x ∈ r, isJsWs x = true) :
    collapseWs (r ++ l) = '-' :: collapseWs (l.dropWhile isJsWs) := by
  match r, hne with
  | c :: r, _ =>
    rw [List.cons_append, collapseWs_cons_ws _ (h c (by simp)),
      dropWhile_ws_append l (fun x hx => h x (by simp [hx]))]

/-- Route derivation, as computed at registration and lookup time:
`'/api/' + channelName.toLowerCase().replace(/\s+/g, '-')`. -/
def deriveRoute (name : String) : String :=
  "/api/" ++ String.mk (collapseWs (name.toList.map jsLower))

/-- A character allowed by the channel-name regex class `[a-zA-Z0-9-_\s]`. -/
def isNameChar (c : Char) : Bool :=
  c.isAlpha || c.isDigit || c == '-' || c == '_' || isJsWs c

/-- Channel-name validation, the test `/^[a-zA-Z0-9-_\s]{3,50}$/.test(name)` —
between 3 and 50 characters, all drawn from the class. -/
def validateChannelName (name : String) : Bool :=
  decide (3 ≤ name.length) && decide (name.length ≤ 50) && name.toList.all isNameChar

/-- The description guard of the create handler, verbatim:
`description.trim().length < 10 || description.length > 1000` (note that the
upper bound is measured on the untrimmed string). -/
def descriptionInvalid (d : String) : Bool :=
  decide ((jsTrim d).length < 10) || decide (1000 < d.length)

/-- Modelled from the platform WHATWG URL class: the host of an
`http://` / `https://` URL is the run of characters after the scheme up to
the first `/`, `?`, `#` or `:`; parsing such a URL succeeds exactly when
that run is nonempty. -/
def extractHost (rest : List Char) : Option String :=
  let host := rest.takeWhile (fun c => !(c == '/' || c == '?' || c == '#' || c == ':'))
  if host.isEmpty then none else some (String.mk host)

/-- Prefix test on character lists (first argument: the string, second:
the candidate prefix). -/
def startsWithL : List Char → List Char → Bool
  | _, [] => true
  | [], _ :: _ => false
  | c :: cs, p :: ps => (c == p) && startsWithL cs ps

/-- Modelled from the platform WHATWG URL class (see `extractHost`): the
host of a URL when it carries an explicit `http` or `https` scheme. -/
def httpHostOf (u : String) : Option String :=
  if startsWithL u.toList "http://".toList then extractHost (u.toList.drop 7)
  else if startsWithL u.toList "https://".toList then extractHost (u.toList.drop 8)
  else none

/-- Cover-image URL validation: `new URL(url)` succeeds and the string starts with
`http://` or `https://`; for strings with those prefixes the platform
parser succeeds exactly when a nonempty host follows (see `httpHostOf`). -/
def isValidUrl (u : String) : Bool := (httpHostOf u).isSome

/-- Contact-link validation: `new URL(url).hostname` is `t.me` or
`telegram.me` (hostname per `httpHostOf`). -/
def isValidTelegramLink (u : String) : Bool :=
  match httpHostOf u with
  | some h => h == "t.me" || h == "telegram.me"
  | none => false

/-- The base58 alphabet used by the Solana SDK (Bitcoin alphabet). -/
def b58Chars : List Char :=
  "123456789ABCDEFGHJKMNPQRSTUVWXYZabcdefghijkmnopqrstuvwxyz".toList

/-- The digit value of a base58 character (its index in the alphabet). -/
def b58ValAt (c : Char) : Nat := b58Chars.indexOf c

/-- All characters of the string belong to the base58 alphabet. -/
def isB58 (cs : List Char) : Bool := cs.all (fun c => b58Chars.contains c)

/-- The big-endian value of a base58 digit string. -/
def b58NatOf (cs : List Char) : Nat := cs.foldl (fun acc c => acc * 58 + b58ValAt c) 0

/-- Fuel-based byte length of a natural number (0 for 0, else one byte per
base-256 digit); the fuel is always called with `fuel = n`, which suffices. -/
def byteLenFuel : Nat → Nat → Nat
  | 0, _ => 0
  | f + 1, n => if n = 0 then 0 else byteLenFuel f (n / 256) + 1

/-- Number of bytes in the minimal big-endian encoding of `n`. -/
def byteLen (n : Nat) : Nat := byteLenFuel n n

/-- Fuel-based little-endian base58 digits of a natural number. -/
def b58DigitsFuel : Nat → Nat → List Nat
  | 0, _ => []
  | f + 1, n => if n = 0 then [] else (n % 58) :: b58DigitsFuel f (n / 58)

/-- Modelled from the `@solana/web3.js` `PublicKey(string)` constructor:
the string is base58-decoded (leading `'1'` characters are leading zero
bytes, the remainder is a big-endian base58 number) and must decode to
exactly 32 bytes.  A key is represented by its count of leading zero bytes
together with the big-endian value of the remaining bytes — a pair that is
in bijection with 32-byte arrays. -/
def parsePubKey (s : String) : Option (Nat × Nat) :=
  let cs := s.toList
  if isB58 cs then
    let k := (cs.takeWhile (fun c => c == '1')).length
    let n := b58NatOf (cs.dropWhile (fun c => c == '1'))
    if k + byteLen n = 32 then some (k, n) else none
  else none

/-- Modelled from the `@solana/web3.js` `PublicKey.toString` (base58
encoding of the 32 bytes): one `'1'` per leading zero byte, then the
base58 digits of the value. -/
def b58Render : Nat × Nat → String
  | (k, n) =>
    String.mk (List.replicate k '1' ++
      ((b58DigitsFuel n n).reverse.map (fun d => b58Chars.getD d ' ')))

theorem b58DigitsFuel_eq {f n : Nat} (h : n ≤ f) : b58DigitsFuel f n = Nat.digits 58 n := by
  induction f generalizing n with
  | zero =>
    have : n = 0 := by omega
    subst this
    simp [b58DigitsFuel]
  | succ f ih =>
    unfold b58DigitsFuel
    by_cases h0 : n = 0
    · subst h0
      simp
    · rw [if_neg h0, ih (by omega : n / 58 ≤ f)]
      exact (Nat.digits_def' (by norm_num) (by omega)).symm

theorem b58_getD_valAt : ∀ c ∈ b58Chars, b58Chars.getD (b58ValAt c) ' ' = c := by decide

theorem b58_valAt_lt : ∀ c ∈ b58Chars, b58ValAt c < 58 := by decide

theorem b58_valAt_ne_zero {c : Char} (h : c ≠ '1') : b58ValAt c ≠ 0 := by
  show List.indexOf c b58Chars ≠ 0
  have hb : b58Chars = '1' :: "23456789ABCDEFGHJKMNPQRSTUVWXYZabcdefghijkmnopqrstuvwxyz".toList := rfl
  rw [hb, List.indexOf_cons]
  have : ('1' == c) = false := by
    simp only [beq_eq_false_iff_ne]
    exact fun hh => h hh.symm
  rw [this]
  simp

theorem b58NatOf_eq_ofDigits (l : List Char) (acc : Nat) :
    l.foldl (fun a c => a * 58 + b58ValAt c) acc =
      acc * 58 ^ l.length + Nat.ofDigits 58 ((l.map b58ValAt).reverse) := by
  induction l generalizing acc with
  | nil => simp [Nat.ofDigits_nil]
  | cons c t ih =>
    simp only [List.foldl_cons, List.map_cons, List.reverse_cons, List.length_cons]
    rw [ih, Nat.ofDigits_append, Nat.ofDigits_singleton]
    have : (t.map b58ValAt).reverse.length = t.length := by simp
    rw [this]
    ring

/-- Base58 decoding followed by re-encoding returns the original string:
`PublicKey(s).toString() = s` for every string accepted by the
constructor. -/
theorem b58Render_parsePubKey {s : String} {pk : Nat × Nat}
    (h : parsePubKey s = some pk) : b58Render pk = s := by
  obtain ⟨data⟩ := s
  unfold parsePubKey at h
  simp only at h
  split at h
  case isFalse => exact absurd h (by simp)
  case isTrue hB =>
    split at h
    case isFalse => exact absurd h (by simp)
    case isTrue hL =>
      rw [Option.some_inj] at h
      subst h
      show String.mk _ = String.mk data
      have hones : ∀ x ∈ data.takeWhile (fun c => c == '1'), x = '1' := by
        intro x hx
        simpa using List.mem_takeWhile_imp hx
      have hmem : ∀ c ∈ data.dropWhile (fun c => c == '1'), c ∈ b58Chars := by
        intro c hc
        have hcd : c ∈ data := List.Sublist.mem hc (List.dropWhile_sublist _)
        have := List.all_eq_true.mp hB c hcd
        exact List.mem_of_elem_eq_true this
      congr 1
      simp only [String.toList]
      have hrep : List.replicate (data.takeWhile (fun c => c == '1')).length '1' =
          data.takeWhile (fun c => c == '1') :=
        (List.eq_replicate_iff.mpr ⟨rfl, hones⟩).symm
      rw [hrep]
      have hn : b58NatOf (data.dropWhile (fun c => c == '1')) =
          Nat.ofDigits 58 (((data.dropWhile (fun c => c == '1')).map b58ValAt).reverse) := by
        unfold b58NatOf
        rw [b58NatOf_eq_ofDigits]
        simp
      have hdig : Nat.digits 58 (b58NatOf (data.dropWhile (fun c => c == '1'))) =
          ((data.dropWhile (fun c => c == '1')).map b58ValAt).reverse := by
        rw [hn]
        apply Nat.digits_ofDigits 58 (by norm_num)
        · intro x hx
          rw [List.mem_reverse] at hx
          obtain ⟨c, hc, rfl⟩ := List.mem_map.mp hx
          exact b58_valAt_lt c (hmem c hc)
        · intro hne
          have hR : data.dropWhile (fun c => c == '1') ≠ [] := by
            intro h0
            rw [h0] at hne
            simp at hne
          have hhead? : (data.dropWhile (fun c => c == '1')).head? =
              some ((data.dropWhile (fun c => c == '1')).head hR) :=
            List.head?_eq_head hR
          have hp : ((data.dropWhile (fun c => c == '1')).head hR == '1') = false := by
            have hmatch := List.head?_dropWhile_not (fun c => c == '1') data
            rw [hhead?] at hmatch
            simpa using hmatch
          have hlast? : (((data.dropWhile (fun c => c == '1')).map b58ValAt).reverse).getLast? =
              some (b58ValAt ((data.dropWhile (fun c => c == '1')).head hR)) := by
            rw [List.getLast?_reverse, List.head?_map, hhead?]
            rfl
          have hgl := List.getLast?_eq_getLast
            (((data.dropWhile (fun c => c == '1')).map b58ValAt).reverse) hne
          rw [hgl, Option.some_inj] at hlast?
          rw [hlast?]
          exact b58_valAt_ne_zero (by simpa using hp)
      rw [b58DigitsFuel_eq le_rfl, hdig, List.reverse_reverse, List.map_map]
      have : (data.dropWhile (fun c => c == '1')).map
          ((fun d => b58Chars.getD d ' ') ∘ b58ValAt) = data.dropWhile (fun c => c == '1') := by
        rw [show (data.dropWhile (fun c => c == '1')).map
            ((fun d => b58Chars.getD d ' ') ∘ b58ValAt) =
            (data.dropWhile (fun c => c == '1')).map id from
          List.map_congr_left (fun c hc => b58_getD_valAt c (hmem c hc)), List.map_id]
      rw [this]
      exact List.takeWhile_append_dropWhile _ _

/-- Fuel-based floor of the base-2 logarithm (0 for inputs below 2); always
called with `fuel = n`, which suffices. -/
def log2Fuel : Nat → Nat → Nat
  | 0, _ => 0
  | f + 1, n => if n ≤ 1 then 0 else log2Fuel f (n / 2) + 1

theorem log2Fuel_spec {f n : Nat} (h1 : 1 ≤ n) (h2 : n ≤ f) :
    2 ^ log2Fuel f n ≤ n ∧ n < 2 ^ (log2Fuel f n + 1) := by
  induction f generalizing n with
  | zero => omega
  | succ f ih =>
    unfold log2Fuel
    by_cases hs : n ≤ 1
    · rw [if_pos hs]
      constructor <;> simp <;> omega
    · rw [if_neg hs]
      have hrec := ih (n := n / 2) (by omega) (by omega)
      obtain ⟨lo, hi⟩ := hrec
      constructor
      · calc 2 ^ (log2Fuel f (n / 2) + 1) = 2 ^ log2Fuel f (n / 2) * 2 := by ring
          _ ≤ n / 2 * 2 := by omega
          _ ≤ n := by omega
      · calc n < (n / 2 + 1) * 2 := by omega
          _ ≤ 2 ^ (log2Fuel f (n / 2) + 1) * 2 := by
              have : n / 2 + 1 ≤ 2 ^ (log2Fuel f (n / 2) + 1) := by omega
              omega
          _ = 2 ^ (log2Fuel f (n / 2) + 1 + 1) := by ring

/-- The floor of the base-2 logarithm of the positive rational `a / d`,
as an integer. -/
def ratLog2 (a d : Nat) : Int :=
  let p : Int := log2Fuel a a
  let q : Int := log2Fuel d d
  if q ≤ p then (if d * 2 ^ (p - q).toNat ≤ a then p - q else p - q - 1)
  else (if d ≤ a * 2 ^ (q - p).toNat then p - q else p - q - 1)

/-- The integer nearest to `num / den`, ties to even. -/
def rneDiv (num den : Nat) : Nat :=
  if 2 * (num % den) < den then num / den
  else if den < 2 * (num % den) then num / den + 1
  else if (num / den) % 2 = 0 then num / den else num / den + 1

/-- Round the positive rational `a / d` to 53 significant binary digits,
round-to-nearest with ties to even: returns the mantissa and exponent of
the IEEE-754 binary64 value `m · 2 ^ e` nearest to `a / d`. -/
def roundMantissa (a d : Nat) : Nat × Int :=
  if ratLog2 a d - 52 ≤ 0 then
    (rneDiv (a * 2 ^ (-(ratLog2 a d - 52)).toNat) d, ratLog2 a d - 52)
  else
    (rneDiv a (d * 2 ^ (ratLog2 a d - 52).toNat), ratLog2 a d - 52)

/-- The rational value of the binary64 rounding of `s · (a / d)`
(`s` the sign, `a`, `d` positive). -/
def floatRoundCore (s : Int) (a d : Nat) : ℚ :=
  let me := roundMantissa a d
  if 0 ≤ me.2 then Rat.divInt (s * ((me.1 * 2 ^ me.2.toNat : Nat) : Int)) 1
  else Rat.divInt (s * (me.1 : Int)) ((2 ^ (-me.2).toNat : Nat) : Int)

/-- IEEE-754 binary64 rounding (round to nearest, ties to even) of an
exact rational value.  Overflow and the subnormal range are not modelled:
every JavaScript number handled by the server (fees in (0, 1000], lamport
amounts, balances) lies well inside the normal range. -/
def floatRound (q : ℚ) : ℚ :=
  if q.num = 0 then 0
  else floatRoundCore (if q.num < 0 then -1 else 1) q.num.natAbs q.den

/-- The transfer amount `blink.fee * LAMPORTS_PER_SOL` as JavaScript
computes it: the IEEE-754 double product, i.e. the binary64 rounding of
the exact rational product `fee × 10⁹` (the exact product is formed on
`fee`'s numerator so that the definition evaluates by kernel reduction;
`lamportsFor_eq` states the equation in the usual form). -/
def lamportsFor (fee : ℚ) : ℚ :=
  floatRound (Rat.divInt (fee.num * 1000000000) (fee.den : Int))

theorem lamportsFor_eq (fee : ℚ) : lamportsFor fee = floatRound (fee * 1000000000) := by
  unfold lamportsFor
  congr 1
  rw [Rat.divInt_eq_div]
  push_cast
  conv_rhs => rw [← Rat.num_div_den fee]
  rw [div_mul_eq_mul_div]

/-- A persisted channel record (the `BlinkData` interface). -/
structure BlinkData where
  route : String
  channelName : String
  description : String
  fee : ℚ
  coverImage : String
  publicKey : String
  createdAt : String
  telegramLink : String
  link : String
deriving DecidableEq, Repr

/-- The persisted store (the `StorageData` interface). -/
structure StorageData where
  blinks : List BlinkData
deriving DecidableEq, Repr

/-- A registration request (the `BlinkRequest` interface); `coverImage`
is the optional field. -/
structure BlinkRequest where
  channelName : String
  description : String
  fee : ℚ
  publicKey : String
  coverImage : Option String
  telegramLink : String
deriving DecidableEq, Repr

/-- The state of the backing file `data.json`: never written, unreadable
(e.g. a permission error), written but not parseable, or a well-formed
serialization of a store (serialization is modelled as the identity
embedding of `StorageData`). -/
inductive FileContent
  | absent
  | unreadable
  | corrupt
  | valid (d : StorageData)
deriving DecidableEq, Repr

/-- Load operation `readData`: reads and parses the backing file; its `catch` returns the
empty store on any failure — missing file, unreadable file and parse
error alike. -/
def readData : FileContent → StorageData
  | .valid d => d
  | _ => { blinks := [] }

/-- The default icon applied when no (truthy) cover image is supplied. -/
def defaultCoverImage : String := "https://example.com/default-icon.png"

/-- Defaulting `coverImage || default` — JavaScript falsiness of the optional string:
an absent or empty cover image is replaced by the default icon. -/
def coverValue : Option String → String
  | none => defaultCoverImage
  | some u => if u = "" then defaultCoverImage else u

/-- The guard `coverImage && !isValidUrl(coverImage)`: an absent or empty
cover image is falsy and skips the URL check. -/
def coverInvalid : Option String → Bool
  | none => false
  | some u => !(u == "") && !(isValidUrl u)

/-- The base URL used to build `link`; the deployment leaves `BASE_URL`
unset, so the code's fallback constant applies. -/
def baseUrl : String := "https://blink-back.onrender.com"

/-- The outcome of the create handler: HTTP 201 with route and channel
name, or an HTTP error status with its message. -/
inductive RegOutcome
  | created (route channelName : String)
  | failed (status : Nat) (msg : String)
deriving DecidableEq, Repr

/-- The record the create handler builds for a request whose public key
parsed to `pk`. -/
def mkBlink (r : BlinkRequest) (pk : Nat × Nat) (now : String) : BlinkData :=
  { route := deriveRoute r.channelName
    channelName := r.channelName
    description := r.description
    fee := r.fee
    coverImage := coverValue r.coverImage
    publicKey := b58Render pk
    createdAt := now
    telegramLink := r.telegramLink
    link := baseUrl ++ deriveRoute r.channelName }

/-- Modelled from the platform `fs.writeFile` used by `writeData`: the
call opens the file with truncation and then writes, so it can succeed;
it can fail at the open (e.g. a permission error), leaving the file
exactly as it was; or it can fail after truncation, part-way through the
write (e.g. out of disk space), leaving behind a truncated or partially
written — hence unparseable — file. -/
inductive WriteOutcome
  | success
  | openError
  | partialWrite
deriving DecidableEq, Repr

/-- The `POST /api/blink/create` handler.  `fc` is the state of the
backing file, `w` is the fate of the `writeData` call (see
`WriteOutcome`), and `now` is the timestamp the clock supplies for
`createdAt`.  Returns the response together with the resulting file
state. -/
def register (r : BlinkRequest) (fc : FileContent) (w : WriteOutcome) (now : String) :
    RegOutcome × FileContent :=
  if !validateChannelName r.channelName then
    (.failed 400 "Invalid channel name. Use only letters, numbers, spaces, hyphens, and underscores (3-50 characters).", fc)
  else if descriptionInvalid r.description then
    (.failed 400 "Description must be between 10 and 1000 characters", fc)
  else if r.fee ≤ 0 ∨ 1000 < r.fee then
    (.failed 400 "Fee must be between 0 and 1000", fc)
  else if jsTrim r.publicKey = "" then
    (.failed 400 "Public key is required", fc)
  else if coverInvalid r.coverImage then
    (.failed 400 "Invalid cover image URL", fc)
  else if !isValidTelegramLink r.telegramLink then
    (.failed 400 "Invalid Telegram link. Must be a t.me or telegram.me URL", fc)
  else
    match parsePubKey r.publicKey with
    | none => (.failed 400 "Invalid public key format", fc)
    | some pk =>
      if (readData fc).blinks.any (fun b => b.route == deriveRoute r.channelName) then
        (.failed 400 "Channel name already exists", fc)
      else
        match w with
        | .openError => (.failed 500 "Error saving data", fc)
        | .partialWrite => (.failed 500 "Error saving data", .corrupt)
        | .success =>
            (.created (deriveRoute r.channelName) r.channelName,
              .valid { blinks := (readData fc).blinks ++ [mkBlink r pk now] })

/-- The record lookup shared by the `GET /api/:channelName` and
`POST /api/:channelName` handlers: derive the route from the supplied
name and scan the store for it. -/
def resolveChannel (channelName : String) (fc : FileContent) : Option BlinkData :=
  (readData fc).blinks.find? (fun b => b.route == deriveRoute channelName)

/-- The public projection emitted by `GET /api/channels/list`. -/
structure ChannelSummary where
  channelName : String
  description : String
  fee : ℚ
  route : String
  createdAt : String
deriving DecidableEq, Repr

/-- The per-record projection of the list handler: exactly the five public
fields, in particular no `publicKey`. -/
def summarize (b : BlinkData) : ChannelSummary :=
  { channelName := b.channelName
    description := b.description
    fee := b.fee
    route := b.route
    createdAt := b.createdAt }

/-- The `GET /api/channels/list` handler. -/
def listChannels (fc : FileContent) : List ChannelSummary :=
  (readData fc).blinks.map summarize

/-- An instruction added to the built transaction (the handler adds a
single system transfer). -/
inductive Instruction
  | transfer (fromPubkey toPubkey : String) (lamports : ℚ)
deriving DecidableEq, Repr

/-- The unsigned transaction the handler builds. -/
structure PayTransaction where
  feePayer : String
  recentBlockhash : String
  instructions : List Instruction
deriving DecidableEq, Repr

/-- The external ledger node (`Connection` on devnet): outcomes of the two
RPC calls the handler performs; `Except.error` models a rejected call. -/
structure Ledger where
  balance : Except String ℚ
  latestBlockhash : Except String String
deriving Repr

/-- The outcome of the payment handler: HTTP 200 with the transaction and
follow-up message, or an HTTP error status with its message. -/
inductive PostOutcome
  | ok (tx : PayTransaction) (message : String)
  | failed (status : Nat) (msg : String)
deriving DecidableEq, Repr

/-- The `POST /api/:channelName` handler (transaction builder).
`account` is the body field (`none` for an absent field; the empty string
is falsy and fails the same guard).  A rejected blockhash fetch is an
`Error` thrown after the dedicated try/catch blocks, so it reaches the
handler's outer catch, which replies with status 400 and the error's
message. -/
def postChannel (channelName : String) (account : Option String) (fc : FileContent)
    (ledger : Ledger) : PostOutcome :=
  match account with
  | none => .failed 400 "Account is required"
  | some a =>
    if a = "" then .failed 400 "Account is required"
    else
      match parsePubKey a with
      | none => .failed 400 "Invalid account public key"
      | some _ =>
        match (readData fc).blinks.find? (fun b => b.route == deriveRoute channelName) with
        | none => .failed 404 "Channel not found"
        | some blink =>
          match parsePubKey blink.publicKey with
          | none => .failed 400 "Invalid public key input"
          | some _ =>
            match ledger.balance with
            | .error _ => .failed 500 "Error checking balance"
            | .ok bal =>
              if bal < lamportsFor blink.fee then .failed 400 "Insufficient balance"
              else
                match ledger.latestBlockhash with
                | .error msg => .failed 400 msg
                | .ok bh =>
                  .ok { feePayer := a
                        recentBlockhash := bh
                        instructions := [.transfer a blink.publicKey (lamportsFor blink.fee)] }
                    ("Thanks for joining! After payment, you can access the channel at: " ++
                      blink.link ++ " (Telegram: " ++ blink.telegramLink ++ ")")

/-- All seven request guards of the create handler pass. -/
def ValidReq (r : BlinkRequest) : Prop :=
  validateChannelName r.channelName = true ∧
  descriptionInvalid r.description = false ∧
  ¬(r.fee ≤ 0 ∨ 1000 < r.fee) ∧
  jsTrim r.publicKey ≠ "" ∧
  coverInvalid r.coverImage = false ∧
  isValidTelegramLink r.telegramLink = true ∧
  (parsePubKey r.publicKey).isSome

/-- Two channel names that differ only in letter case or in the lengths of
their whitespace runs: corresponding non-whitespace characters lowercase
to the same character, and corresponding whitespace runs are both nonempty
but of arbitrary lengths (and arbitrary whitespace characters). -/
inductive CaseWsEquiv : List Char → List Char → Prop
  | nil : CaseWsEquiv [] []
  | chr {c d : Char} {a b : List Char} : isJsWs c = false → isJsWs d = false →
      jsLower c = jsLower d → CaseWsEquiv a b → CaseWsEquiv (c :: a) (d :: b)
  | ws {r s : List Char} {a b : List Char} : r ≠ [] → s ≠ [] →
      (∀ x ∈ r, isJsWs x = true) → (∀ x ∈ s, isJsWs x = true) →
      CaseWsEquiv a b → CaseWsEquiv (r ++ a) (s ++ b)

theorem collapse_eq_of_equiv {a b : List Char} (h : CaseWsEquiv a b) :
    collapseWs (a.map jsLower) = collapseWs (b.map jsLower) ∧
      collapseWs ((a.map jsLower).dropWhile isJsWs) =
        collapseWs ((b.map jsLower).dropWhile isJsWs) := by
  induction h with
  | nil => exact ⟨rfl, rfl⟩
  | chr hc hd hl _ ih =>
    rename_i c d a b _
    have hc' : isJsWs (jsLower c) = false := by rw [isJsWs_jsLower]; exact hc
    have hd' : isJsWs (jsLower d) = false := by rw [isJsWs_jsLower]; exact hd
    constructor
    · simp only [List.map_cons]
      rw [collapseWs_cons_not_ws _ hc', collapseWs_cons_not_ws _ hd', hl, ih.1]
    · simp only [List.map_cons]
      rw [List.dropWhile_cons_of_neg (by simp [hc']),
        List.dropWhile_cons_of_neg (by simp [hd']),
        collapseWs_cons_not_ws _ hc', collapseWs_cons_not_ws _ hd', hl, ih.1]
  | ws hr hs hra hsa _ ih =>
    rename_i r s a b _
    have hra' : ∀ x ∈ r.map jsLower, isJsWs x = true := by
      intro x hx
      obtain ⟨c, hc, rfl⟩ := List.mem_map.mp hx
      rw [isJsWs_jsLower]
      exact hra c hc
    have hsa' : ∀ x ∈ s.map jsLower, isJsWs x = true := by
      intro x hx
      obtain ⟨c, hc, rfl⟩ := List.mem_map.mp hx
      rw [isJsWs_jsLower]
      exact hsa c hc
    have hrne : r.map jsLower ≠ [] := by simpa using hr
    have hsne : s.map jsLower ≠ [] := by simpa using hs
    constructor
    · simp only [List.map_append]
      rw [collapseWs_ws_append _ hrne hra', collapseWs_ws_append _ hsne hsa', ih.2]
    · simp only [List.map_append]
      rw [dropWhile_ws_append _ hra', dropWhile_ws_append _ hsa']
      exact ih.2

/-- Route derivation is invariant under case changes and whitespace-run
length changes. -/
theorem deriveRoute_eq_of_equiv {a b : String} (h : CaseWsEquiv a.toList b.toList) :
    deriveRoute a = deriveRoute b := by
  unfold deriveRoute
  rw [(collapse_eq_of_equiv h).1]

/-- A whitespace-only channel name always derives the name-free route
`'/api/' + '-'`. -/
theorem deriveRoute_all_ws {s : String} (hne : s.toList ≠ [])
    (h : ∀ c ∈ s.toList, isJsWs c = true) : deriveRoute s = "/api/-" := by
  unfold deriveRoute
  have hmap : ∀ x ∈ s.toList.map jsLower, isJsWs x = true := by
    intro x hx
    obtain ⟨c, hc, rfl⟩ := List.mem_map.mp hx
    rw [isJsWs_jsLower]
    exact h c hc
  have hcol : collapseWs (s.toList.map jsLower) = ['-'] := by
    have happ := collapseWs_ws_append (r := s.toList.map jsLower) []
      (by simpa using hne) hmap
    rw [List.append_nil] at happ
    simpa using happ
  rw [hcol]
  rfl

/-- Unfolding of the create handler once all request guards pass: the
outcome depends only on the duplicate check and the fate of the save. -/
theorem register_of_valid {r : BlinkRequest} {pk : Nat × Nat} (fc : FileContent)
    (w : WriteOutcome) (now : String) (hv : ValidReq r)
    (hpk : parsePubKey r.publicKey = some pk) :
    register r fc w now =
      if (readData fc).blinks.any (fun b => b.route == deriveRoute r.channelName) then
        (.failed 400 "Channel name already exists", fc)
      else
        match w with
        | .openError => (.failed 500 "Error saving data", fc)
        | .partialWrite => (.failed 500 "Error saving data", .corrupt)
        | .success =>
            (.created (deriveRoute r.channelName) r.channelName,
              .valid { blinks := (readData fc).blinks ++ [mkBlink r pk now] }) := by
  obtain ⟨h1, h2, h3, h4, h5, h6, _⟩ := hv
  unfold register
  rw [h1, h2, h5, h6, hpk, if_neg h3, if_neg h4]
  simp only [Bool.not_true, Bool.false_eq_true, if_false]

/-- Inversion of a successful create call: the public key parsed, the
duplicate check was negative, the save succeeded, and the file now holds
the old records plus the new one. -/
theorem register_created_inv {r : BlinkRequest} {fc fc' : FileContent}
    {w : WriteOutcome} {now rt cn : String}
    (h : register r fc w now = (.created rt cn, fc')) :
    ∃ pk, parsePubKey r.publicKey = some pk ∧
      ((readData fc).blinks.any (fun b => b.route == deriveRoute r.channelName)) = false ∧
      w = .success ∧ rt = deriveRoute r.channelName ∧ cn = r.channelName ∧
      fc' = .valid { blinks := (readData fc).blinks ++ [mkBlink r pk now] } := by
  unfold register at h
  split at h
  · simp at h
  split at h
  · simp at h
  split at h
  · simp at h
  split at h
  · simp at h
  split at h
  · simp at h
  split at h
  · simp at h
  split at h
  · simp at h
  case h_2 pk hpk =>
    split at h
    · simp at h
    case isFalse hdup =>
      split at h
      · simp at h
      · simp at h
      · rw [Prod.mk.injEq, RegOutcome.created.injEq] at h
        obtain ⟨⟨hrt, hcn⟩, hfc⟩ := h
        exact ⟨pk, hpk, by simpa using hdup, rfl, hrt.symm, hcn.symm, hfc.symm⟩

/-- C1: For every valid registration request, resolving the channel by the
same channelName immediately after a successful register returns a stored
record whose channelName, fee, and ownerAddress (publicKey) equal those
supplied at registration. -/
theorem c1_register_then_resolve {r : BlinkRequest} {fc fc' : FileContent}
    {w : WriteOutcome} {now rt cn : String}
    (h : register r fc w now = (.created rt cn, fc')) :
    ∃ b, resolveChannel r.channelName fc' = some b ∧
      b.channelName = r.channelName ∧ b.fee = r.fee ∧ b.publicKey = r.publicKey := by
  obtain ⟨pk, hpk, hdup', _, _, _, hfc⟩ := register_created_inv h
  refine ⟨mkBlink r pk now, ?_, rfl, rfl, b58Render_parsePubKey hpk⟩
  rw [hfc]
  have hnone : (readData fc).blinks.find?
      (fun b => b.route == deriveRoute r.channelName) = none :=
    List.find?_eq_none.mpr (List.any_eq_false.mp hdup')
  show List.find? (fun b => b.route == deriveRoute r.channelName)
    ((readData fc).blinks ++ [mkBlink r pk now]) = some (mkBlink r pk now)
  rw [List.find?_append, hnone]
  have hpos : ((mkBlink r pk now).route == deriveRoute r.channelName) = true := by
    simp [mkBlink]
  simp [List.find?_cons, hpos]

/-- Witness for C1 at a concrete valid request against the empty store. -/
theorem c1_witness :
    ∃ b, resolveChannel "abc" (.valid { blinks := [{
        route := "/api/abc"
        channelName := "abc"
        description := "abcdefghij"
        fee := 1
        coverImage := "https://example.com/default-icon.png"
        publicKey := "11111111111111111111111111111111"
        createdAt := "t"
        telegramLink := "https://t.me/x"
        link := "https://blink-back.onrender.com/api/abc" }] }) = some b ∧
      b.channelName = "abc" ∧ b.fee = 1 ∧
      b.publicKey = "11111111111111111111111111111111" :=
  @c1_register_then_resolve
    { channelName := "abc"
      description := "abcdefghij"
      fee := 1
      publicKey := "11111111111111111111111111111111"
      coverImage := none
      telegramLink := "https://t.me/x" }
    .absent
    (.valid { blinks := [{
        route := "/api/abc"
        channelName := "abc"
        description := "abcdefghij"
        fee := 1
        coverImage := "https://example.com/default-icon.png"
        publicKey := "11111111111111111111111111111111"
        createdAt := "t"
        telegramLink := "https://t.me/x"
        link := "https://blink-back.onrender.com/api/abc" }] })
    .success "t" "/api/abc" "abc" (by decide)

/-- C2: Route derivation maps any two channel names that differ only in
letter case or in whitespace-run length to the same route, and registering
a second channel whose name normalizes to an already-registered route
fails with the duplicate-channel error while leaving the store
unchanged. -/
theorem c2_route_collision :
    (∀ a b : String, CaseWsEquiv a.toList b.toList → deriveRoute a = deriveRoute b) ∧
    (∀ (r1 r2 : BlinkRequest) (fc fc' : FileContent) (w : WriteOutcome)
      (now now' rt cn : String),
      register r1 fc .success now = (.created rt cn, fc') →
      CaseWsEquiv r1.channelName.toList r2.channelName.toList →
      ValidReq r2 →
      register r2 fc' w now' = (.failed 400 "Channel name already exists", fc')) := by
  constructor
  · exact fun a b h => deriveRoute_eq_of_equiv h
  · intro r1 r2 fc fc' w now now' rt cn h1 heq hv2
    obtain ⟨pk1, hpk1, _, _, _, _, hfc⟩ := register_created_inv h1
    obtain ⟨pk2, hpk2⟩ := Option.isSome_iff_exists.mp hv2.2.2.2.2.2.2
    rw [register_of_valid fc' w now' hv2 hpk2]
    have hroute : deriveRoute r2.channelName = deriveRoute r1.channelName :=
      (deriveRoute_eq_of_equiv heq).symm
    have hmem : mkBlink r1 pk1 now ∈ (readData fc').blinks := by
      rw [hfc]
      show mkBlink r1 pk1 now ∈ (readData fc).blinks ++ [mkBlink r1 pk1 now]
      simp
    have hany : (readData fc').blinks.any
        (fun b => b.route == deriveRoute r2.channelName) = true := by
      rw [List.any_eq_true]
      exact ⟨mkBlink r1 pk1 now, hmem, by simp [mkBlink, hroute]⟩
    rw [if_pos hany]

/-- Witness for C2: `"My Channel"` and `"my   channel"` collide; the
second registration is refused with the duplicate error and the store is
unchanged. -/
theorem c2_witness :
    register
      { channelName := "my   channel"
        description := "abcdefghij"
        fee := 1
        publicKey := "11111111111111111111111111111112"
        coverImage := none
        telegramLink := "https://t.me/y" }
      (.valid { blinks := [{
        route := "/api/my-channel"
        channelName := "My Channel"
        description := "abcdefghij"
        fee := 1
        coverImage := "https://example.com/default-icon.png"
        publicKey := "11111111111111111111111111111111"
        createdAt := "t"
        telegramLink := "https://t.me/x"
        link := "https://blink-back.onrender.com/api/my-channel" }] })
      .success "t2" =
      (.failed 400 "Channel name already exists",
        .valid { blinks := [{
        route := "/api/my-channel"
        channelName := "My Channel"
        description := "abcdefghij"
        fee := 1
        coverImage := "https://example.com/default-icon.png"
        publicKey := "11111111111111111111111111111111"
        createdAt := "t"
        telegramLink := "https://t.me/x"
        link := "https://blink-back.onrender.com/api/my-channel" }] }) :=
  c2_route_collision.2
    { channelName := "My Channel"
      description := "abcdefghij"
      fee := 1
      publicKey := "11111111111111111111111111111111"
      coverImage := none
      telegramLink := "https://t.me/x" }
    { channelName := "my   channel"
      description := "abcdefghij"
      fee := 1
      publicKey := "11111111111111111111111111111112"
      coverImage := none
      telegramLink := "https://t.me/y" }
    .absent
    (.valid { blinks := [{
        route := "/api/my-channel"
        channelName := "My Channel"
        description := "abcdefghij"
        fee := 1
        coverImage := "https://example.com/default-icon.png"
        publicKey := "11111111111111111111111111111111"
        createdAt := "t"
        telegramLink := "https://t.me/x"
        link := "https://blink-back.onrender.com/api/my-channel" }] })
    .success "t" "t2" "/api/my-channel" "My Channel"
    (by decide)
    (.chr (by decide) (by decide) (by decide)
      (.chr (by decide) (by decide) (by decide)
        (@CaseWsEquiv.ws [' '] [' ', ' ', ' ']
          ['C', 'h', 'a', 'n', 'n', 'e', 'l'] ['c', 'h', 'a', 'n', 'n', 'e', 'l']
          (by decide) (by decide) (by decide) (by decide)
          (.chr (by decide) (by decide) (by decide)
            (.chr (by decide) (by decide) (by decide)
              (.chr (by decide) (by decide) (by decide)
                (.chr (by decide) (by decide) (by decide)
                  (.chr (by decide) (by decide) (by decide)
                    (.chr (by decide) (by decide) (by decide)
                      (.chr (by decide) (by decide) (by decide) .nil))))))))))
    ⟨by decide, by decide, by decide, by decide, by decide, by decide, by decide⟩

/-- C3 (amended): the first four checks run in the order name →
description → fee → address-presence; a request passing those but carrying
an invalid (truthy) cover image is rejected with the cover-image error —
regardless of its publicKey, so in particular when the publicKey is
non-empty but malformed: the address-format check only runs after the
cover-image and contact-link checks. -/
theorem c3_cover_error_wins {r : BlinkRequest} (fc : FileContent)
    (w : WriteOutcome) (now : String)
    (h1 : validateChannelName r.channelName = true)
    (h2 : descriptionInvalid r.description = false)
    (h3 : ¬(r.fee ≤ 0 ∨ 1000 < r.fee))
    (h4 : jsTrim r.publicKey ≠ "")
    (h5 : coverInvalid r.coverImage = true) :
    register r fc w now = (.failed 400 "Invalid cover image URL", fc) := by
  unfold register
  rw [h1, h2, h5, if_neg h3, if_neg h4]
  simp

/-- Counterexample for C3 as stated: a request whose owner address is
non-empty but malformed and whose cover image is invalid is answered with
the cover-image error, not the address error. -/
theorem c3_counterexample :
    parsePubKey "!!!" = none ∧ jsTrim "!!!" ≠ "" ∧ isValidUrl "not-a-url" = false ∧
    register
      { channelName := "abc"
        description := "abcdefghij"
        fee := 1
        publicKey := "!!!"
        coverImage := some "not-a-url"
        telegramLink := "https://t.me/x" }
      .absent .success "t" =
      (.failed 400 "Invalid cover image URL", .absent) := by decide

/-- Witness for the amended C3 at a concrete request. -/
theorem c3_witness :
    register
      { channelName := "xyz"
        description := "abcdefghij"
        fee := 2
        publicKey := "!bad-key!"
        coverImage := some "nonsense"
        telegramLink := "https://t.me/x" }
      .absent .success "t" =
      (.failed 400 "Invalid cover image URL", .absent) :=
  @c3_cover_error_wins
    { channelName := "xyz"
      description := "abcdefghij"
      fee := 2
      publicKey := "!bad-key!"
      coverImage := some "nonsense"
      telegramLink := "https://t.me/x" }
    .absent .success "t" (by decide) (by decide) (by decide) (by decide) (by decide)

/-- When the duplicate check is positive the create call never reaches
the save, so the backing file is returned unchanged on every path. -/
theorem register_snd_eq_of_any {r : BlinkRequest} {fc : FileContent} (w : WriteOutcome)
    (now : String)
    (hany : ((readData fc).blinks.any (fun b => b.route == deriveRoute r.channelName)) = true) :
    (register r fc w now).2 = fc := by
  unfold register
  repeat' split
  all_goals simp_all

/-- C4 (amended): when the save step fails the handler answers with the
storage-write error, but the pre-call store survives only a failure of
the open: a write that fails after the truncation leaves the backing file
corrupt, and a subsequent load then observes the empty store rather than
the records that were present before the call.  The appended record is
observable only after a successful save. -/
theorem c4_register_save_failure :
    (∀ (r : BlinkRequest) (fc : FileContent) (now : String),
      ValidReq r →
      ((readData fc).blinks.any (fun b => b.route == deriveRoute r.channelName)) = false →
      register r fc .openError now = (.failed 500 "Error saving data", fc) ∧
      register r fc .partialWrite now = (.failed 500 "Error saving data", .corrupt)) ∧
    readData .corrupt = { blinks := [] } ∧
    (∀ (r : BlinkRequest) (fc : FileContent) (w : WriteOutcome) (now rt cn : String),
      (register r fc w now).1 = .created rt cn → w = .success) := by
  refine ⟨?_, rfl, ?_⟩
  · intro r fc now hv hdup
    obtain ⟨pk, hpk⟩ := Option.isSome_iff_exists.mp hv.2.2.2.2.2.2
    constructor
    · rw [register_of_valid fc .openError now hv hpk, if_neg (by simp [hdup])]
    · rw [register_of_valid fc .partialWrite now hv hpk, if_neg (by simp [hdup])]
  · intro r fc w now rt cn hcre
    have heq : register r fc w now = (.created rt cn, (register r fc w now).2) := by
      rw [← hcre]
    obtain ⟨pk, _, _, hws, _, _, _⟩ := register_created_inv heq
    exact hws

/-- Counterexample for C4 as stated: a save that fails after the
truncation (e.g. out of disk space mid-write) leaves the backing file
corrupt, so a subsequent load observes the empty store — not the
one-record store that was persisted before the call. -/
theorem c4_counterexample :
    register
      { channelName := "abc"
        description := "abcdefghij"
        fee := 1
        publicKey := "11111111111111111111111111111111"
        coverImage := none
        telegramLink := "https://t.me/x" }
      (.valid { blinks := [{
        route := "/api/xyz"
        channelName := "xyz"
        description := "abcdefghij"
        fee := 1
        coverImage := "https://example.com/default-icon.png"
        publicKey := "11111111111111111111111111111111"
        createdAt := "t0"
        telegramLink := "https://t.me/z"
        link := "https://blink-back.onrender.com/api/xyz" }] })
      .partialWrite "t" =
      (.failed 500 "Error saving data", .corrupt) ∧
    readData .corrupt = { blinks := [] } ∧
    readData (.valid { blinks := [{
        route := "/api/xyz"
        channelName := "xyz"
        description := "abcdefghij"
        fee := 1
        coverImage := "https://example.com/default-icon.png"
        publicKey := "11111111111111111111111111111111"
        createdAt := "t0"
        telegramLink := "https://t.me/z"
        link := "https://blink-back.onrender.com/api/xyz" }] }) ≠
      { blinks := [] } := by decide

/-- Witness for the amended C4: over a one-record store, an open failure
preserves the file while a partial write corrupts it, and a created
outcome certifies that the save succeeded. -/
theorem c4_witness :
    (register
      { channelName := "abc"
        description := "abcdefghij"
        fee := 1
        publicKey := "11111111111111111111111111111111"
        coverImage := none
        telegramLink := "https://t.me/x" }
      (.valid { blinks := [{
        route := "/api/xyz"
        channelName := "xyz"
        description := "abcdefghij"
        fee := 1
        coverImage := "https://example.com/default-icon.png"
        publicKey := "11111111111111111111111111111111"
        createdAt := "t0"
        telegramLink := "https://t.me/z"
        link := "https://blink-back.onrender.com/api/xyz" }] })
      .openError "t" = (.failed 500 "Error saving data",
        .valid { blinks := [{
        route := "/api/xyz"
        channelName := "xyz"
        description := "abcdefghij"
        fee := 1
        coverImage := "https://example.com/default-icon.png"
        publicKey := "11111111111111111111111111111111"
        createdAt := "t0"
        telegramLink := "https://t.me/z"
        link := "https://blink-back.onrender.com/api/xyz" }] }) ∧
    register
      { channelName := "abc"
        description := "abcdefghij"
        fee := 1
        publicKey := "11111111111111111111111111111111"
        coverImage := none
        telegramLink := "https://t.me/x" }
      (.valid { blinks := [{
        route := "/api/xyz"
        channelName := "xyz"
        description := "abcdefghij"
        fee := 1
        coverImage := "https://example.com/default-icon.png"
        publicKey := "11111111111111111111111111111111"
        createdAt := "t0"
        telegramLink := "https://t.me/z"
        link := "https://blink-back.onrender.com/api/xyz" }] })
      .partialWrite "t" = (.failed 500 "Error saving data", .corrupt)) ∧
    WriteOutcome.success = .success :=
  ⟨c4_register_save_failure.1
    { channelName := "abc"
      description := "abcdefghij"
      fee := 1
      publicKey := "11111111111111111111111111111111"
      coverImage := none
      telegramLink := "https://t.me/x" }
    (.valid { blinks := [{
        route := "/api/xyz"
        channelName := "xyz"
        description := "abcdefghij"
        fee := 1
        coverImage := "https://example.com/default-icon.png"
        publicKey := "11111111111111111111111111111111"
        createdAt := "t0"
        telegramLink := "https://t.me/z"
        link := "https://blink-back.onrender.com/api/xyz" }] })
    "t"
    ⟨by decide, by decide, by decide, by decide, by decide, by decide, by decide⟩
    (by decide),
  c4_register_save_failure.2.2
    { channelName := "abc"
      description := "abcdefghij"
      fee := 1
      publicKey := "11111111111111111111111111111111"
      coverImage := none
      telegramLink := "https://t.me/x" }
    .absent .success "t" "/api/abc" "abc" (by decide)⟩

theorem divInt_mul_pow_cancel (z : Int) (k : Nat) :
    Rat.divInt (z * 2 ^ k) ((2:Int) ^ k) = (z : ℚ) := by
  rw [Rat.divInt_eq_div]
  push_cast
  rw [mul_div_assoc, div_self (by positivity), mul_one]

/-- Whole numbers below `2 ^ 53` are fixed points of binary64 rounding. -/
theorem floatRound_natCast {N : Nat} (h1 : 0 < N) (h2 : N < 2 ^ 53) :
    floatRound (N : ℚ) = (N : ℚ) := by
  have hspec := log2Fuel_spec (f := N) (n := N) h1 le_rfl
  have hl53 : log2Fuel N N < 53 := by
    by_contra hge
    have : (2:Nat) ^ 53 ≤ 2 ^ log2Fuel N N := Nat.pow_le_pow_right (by norm_num) (by omega)
    omega
  have hlog : ratLog2 N 1 = (log2Fuel N N : Int) := by
    unfold ratLog2
    have hq : log2Fuel 1 1 = 0 := rfl
    rw [hq]
    push_cast
    rw [if_pos (by omega : (0:Int) ≤ (log2Fuel N N : Int))]
    rw [if_pos (by simpa using hspec.1)]
    omega
  have hrm : roundMantissa N 1 = (N * 2 ^ (52 - log2Fuel N N), (log2Fuel N N : Int) - 52) := by
    unfold roundMantissa
    rw [hlog]
    have he : ((log2Fuel N N : Int) - 52 ≤ 0) := by omega
    rw [if_pos he]
    have htn : (-((log2Fuel N N : Int) - 52)).toNat = 52 - log2Fuel N N := by omega
    rw [htn]
    unfold rneDiv
    rw [Nat.mod_one, Nat.div_one]
    rw [if_pos (by omega : 2 * 0 < 1)]
  unfold floatRound
  rw [Rat.num_natCast, Rat.den_natCast]
  rw [if_neg (by omega : ¬((N:Int) = 0)), if_neg (by omega : ¬((N:Int) < 0))]
  rw [Int.natAbs_ofNat]
  unfold floatRoundCore
  rw [hrm]
  by_cases hc : (0:Int) ≤ (log2Fuel N N : Int) - 52
  · have h52 : log2Fuel N N = 52 := by omega
    rw [if_pos hc]
    simp only [h52]
    norm_num
  · rw [if_neg hc]
    have htn : (-((log2Fuel N N : Int) - 52)).toNat = 52 - log2Fuel N N := by omega
    rw [htn]
    have : ((N * 2 ^ (52 - log2Fuel N N) : Nat) : Int) = (N : Int) * 2 ^ (52 - log2Fuel N N) := by
      push_cast
      ring
    rw [one_mul, this]
    have h2k : (((2:Nat) ^ (52 - log2Fuel N N) : Nat) : Int) = (2:Int) ^ (52 - log2Fuel N N) := by
      push_cast
      ring
    rw [h2k, divInt_mul_pow_cancel]
    norm_cast

/-- C5 (amended): the transfer amount placed in the built transaction is
`lamportsFor fee` — the IEEE-754 binary64 product of the stored fee with
the unit multiplier `10 ^ 9` — and for whole-SOL fees (1 ≤ fee ≤ 1000 an
integer) that product is the exact integer `fee × 10 ^ 9`; the
counterexample shows it is not exact (and not an integer) for every
representable fee. -/
theorem c5_amount_is_double_product :
    (∀ (cn a : String) (fc : FileContent) (ledger : Ledger) (tx : PayTransaction)
      (msg : String),
      postChannel cn (some a) fc ledger = .ok tx msg →
      ∃ blink, blink ∈ (readData fc).blinks ∧
        tx.instructions = [.transfer a blink.publicKey (lamportsFor blink.fee)]) ∧
    (∀ n : Nat, 0 < n → n ≤ 1000 → lamportsFor (n : ℚ) = (n : ℚ) * 1000000000) := by
  constructor
  · intro cn a fc ledger tx msg h
    unfold postChannel at h
    split at h
    · simp at h
    next x hx =>
      obtain rfl := Option.some_inj.mp hx
      split at h
      · simp at h
      split at h
      · simp at h
      case h_2 =>
        split at h
        · simp at h
        case h_2 blink hfind =>
          split at h
          · simp at h
          case h_2 =>
            split at h
            · simp at h
            case h_2 bal =>
              split at h
              · simp at h
              case isFalse =>
                split at h
                · simp at h
                case h_2 bh =>
                  rw [PostOutcome.ok.injEq] at h
                  obtain ⟨htx, _⟩ := h
                  exact ⟨blink, List.mem_of_find?_eq_some hfind, by rw [← htx]⟩
  · intro n hn hn1000
    rw [lamportsFor_eq]
    have hcast : ((n:ℚ) * 1000000000) = ((n * 1000000000 : Nat) : ℚ) := by
      push_cast
      ring
    rw [hcast, floatRound_natCast (by positivity) (by omega)]

/-- Counterexample for C5 as stated: for the stored fee `1.005` (the
binary64 value nearest to 1.005) the amount placed in the transaction is
the rounded double product — a non-integer that differs both from the
exact product `fee × 10 ^ 9` and from `1005000000`, the exact integer
amount for 1.005 SOL. -/
theorem c5_counterexample :
    floatRound (Rat.divInt 1005 1000) = Rat.divInt 1131529406376837 1125899906842624 ∧
    lamportsFor (Rat.divInt 1131529406376837 1125899906842624) =
      Rat.divInt 8430551039999999 8388608 ∧
    Rat.divInt 8430551039999999 8388608 ≠
      Rat.divInt 1131529406376837000000000 1125899906842624 ∧
    (Rat.divInt 8430551039999999 8388608).den ≠ 1 ∧
    Rat.divInt 8430551039999999 8388608 ≠ (1005000000 : ℚ) := by decide

/-- Witness for the amended C5: a concrete built transaction carries
`lamportsFor fee`, and a whole-number fee of 2 SOL converts exactly. -/
theorem c5_witness :
    (∃ blink, blink ∈ (readData (.valid { blinks := [{
        route := "/api/abc"
        channelName := "abc"
        description := "abcdefghij"
        fee := 2
        coverImage := "https://example.com/default-icon.png"
        publicKey := "11111111111111111111111111111111"
        createdAt := "t"
        telegramLink := "https://t.me/x"
        link := "https://blink-back.onrender.com/api/abc" }] })).blinks ∧
      (PayTransaction.mk "11111111111111111111111111111112" "hash1"
        [.transfer "11111111111111111111111111111112"
          "11111111111111111111111111111111" 2000000000]).instructions =
        [.transfer "11111111111111111111111111111112" blink.publicKey
          (lamportsFor blink.fee)]) ∧
    lamportsFor ((2:Nat) : ℚ) = ((2:Nat) : ℚ) * 1000000000 :=
  ⟨c5_amount_is_double_product.1 "abc" "11111111111111111111111111111112"
    (.valid { blinks := [{
        route := "/api/abc"
        channelName := "abc"
        description := "abcdefghij"
        fee := 2
        coverImage := "https://example.com/default-icon.png"
        publicKey := "11111111111111111111111111111111"
        createdAt := "t"
        telegramLink := "https://t.me/x"
        link := "https://blink-back.onrender.com/api/abc" }] })
    { balance := .ok 3000000000, latestBlockhash := .ok "hash1" }
    (PayTransaction.mk "11111111111111111111111111111112" "hash1"
      [.transfer "11111111111111111111111111111112"
        "11111111111111111111111111111111" 2000000000])
    ("Thanks for joining! After payment, you can access the channel at: " ++
      "https://blink-back.onrender.com/api/abc" ++ " (Telegram: " ++ "https://t.me/x" ++ ")")
    (by decide),
  c5_amount_is_double_product.2 2 (by decide) (by decide)⟩

/-- C6 (amended): `readData` returns the empty collection on every read
failure — missing file, unreadable file and corrupt content alike — and
never surfaces a read error to its caller; only a file holding a valid
serialization yields its records. -/
theorem c6_read_failures_degrade_to_empty (fc : FileContent) :
    readData fc = { blinks := [] } ∨ ∃ d, fc = .valid d ∧ readData fc = d := by
  cases fc with
  | valid d => exact Or.inr ⟨d, rfl, rfl⟩
  | absent => exact Or.inl rfl
  | unreadable => exact Or.inl rfl
  | corrupt => exact Or.inl rfl

/-- Counterexample for C6 as stated: a corrupt (written but unparseable)
backing file — and likewise an unreadable one — is silently treated as the
empty collection instead of surfacing a storage-read error. -/
theorem c6_counterexample :
    readData .corrupt = { blinks := [] } ∧ FileContent.corrupt ≠ .absent ∧
    readData .unreadable = { blinks := [] } ∧ FileContent.unreadable ≠ .absent := by
  decide

/-- C7 (amended): the description guard accepts exactly the descriptions
whose trimmed length is at least 10 and whose untrimmed length is at most
1000 — the upper bound is measured before trimming. -/
theorem c7_description_bounds (d : String) :
    descriptionInvalid d = false ↔ (10 ≤ (jsTrim d).length ∧ d.length ≤ 1000) := by
  unfold descriptionInvalid
  simp only [Bool.or_eq_false_iff, decide_eq_false_iff_not, not_lt]

set_option maxRecDepth 40000 in
/-- Counterexample for C7 as stated: a description of 1000 letters
followed by one space has trimmed length 1000 — inside the claimed
[10, 1000] window — yet is rejected, because the untrimmed length 1001 is
what the upper bound is compared against. -/
theorem c7_counterexample :
    descriptionInvalid (String.mk (List.replicate 1000 'a' ++ [' '])) = true ∧
    (jsTrim (String.mk (List.replicate 1000 'a' ++ [' ']))).length = 1000 ∧
    (String.mk (List.replicate 1000 'a' ++ [' '])).length = 1001 := by decide

/-- Two records equal in every field except possibly `publicKey`. -/
def EqExceptOwner (x y : BlinkData) : Prop :=
  x.route = y.route ∧ x.channelName = y.channelName ∧
  x.description = y.description ∧ x.fee = y.fee ∧ x.coverImage = y.coverImage ∧
  x.createdAt = y.createdAt ∧ x.telegramLink = y.telegramLink ∧ x.link = y.link

/-- C8: the listing never exposes ownerAddress: two stores differing only
in the `publicKey` fields of their records produce identical listings, and
by construction each summary carries only name, description, fee, route
and createdAt. -/
theorem c8_list_hides_owner {d1 d2 : StorageData}
    (h : List.Forall₂ EqExceptOwner d1.blinks d2.blinks) :
    listChannels (.valid d1) = listChannels (.valid d2) := by
  have haux : ∀ (l1 l2 : List BlinkData), List.Forall₂ EqExceptOwner l1 l2 →
      l1.map summarize = l2.map summarize := by
    intro l1 l2 hf
    induction hf with
    | nil => rfl
    | cons hxy _ ih =>
      simp only [List.map_cons]
      rw [ih]
      obtain ⟨h1, h2, h3, h4, _, h6, _, _⟩ := hxy
      unfold summarize
      rw [h1, h2, h3, h4, h6]
  exact haux d1.blinks d2.blinks h

/-- Witness for C8: two one-record stores whose records differ exactly in
`publicKey` have equal listings. -/
theorem c8_witness :
    listChannels (.valid { blinks := [{
        route := "/api/abc"
        channelName := "abc"
        description := "abcdefghij"
        fee := 1
        coverImage := "https://example.com/default-icon.png"
        publicKey := "11111111111111111111111111111111"
        createdAt := "t"
        telegramLink := "https://t.me/x"
        link := "https://blink-back.onrender.com/api/abc" }] }) =
    listChannels (.valid { blinks := [{
        route := "/api/abc"
        channelName := "abc"
        description := "abcdefghij"
        fee := 1
        coverImage := "https://example.com/default-icon.png"
        publicKey := "11111111111111111111111111111112"
        createdAt := "t"
        telegramLink := "https://t.me/x"
        link := "https://blink-back.onrender.com/api/abc" }] }) :=
  c8_list_hides_owner (.cons ⟨rfl, rfl, rfl, rfl, rfl, rfl, rfl, rfl⟩ .nil)

/-- C9 (amended): when the blockhash fetch rejects, the payment handler
replies with HTTP 400 carrying the underlying error message — a
client-error status, not a 5xx server-side failure — and returns no
transaction, partial or otherwise. -/
theorem c9_blockhash_failure {cn a : String} {fc : FileContent} {ledger : Ledger}
    {blink : BlinkData} {bal : ℚ} {msg : String}
    (ha : a ≠ "")
    (hpk : (parsePubKey a).isSome)
    (hfind : (readData fc).blinks.find? (fun b => b.route == deriveRoute cn) = some blink)
    (hrcpt : (parsePubKey blink.publicKey).isSome)
    (hbal : ledger.balance = .ok bal)
    (hsuff : ¬ bal < lamportsFor blink.fee)
    (hbh : ledger.latestBlockhash = .error msg) :
    postChannel cn (some a) fc ledger = .failed 400 msg := by
  obtain ⟨pk1, hpk1⟩ := Option.isSome_iff_exists.mp hpk
  obtain ⟨pk2, hpk2⟩ := Option.isSome_iff_exists.mp hrcpt
  unfold postChannel
  simp only [hpk1, hfind, hpk2, hbal, hbh, if_neg ha, if_neg hsuff]

/-- Counterexample for C9 as stated: with the channel resolved, the payer
funded, and the ledger's blockhash endpoint failing, the handler returns
status 400 — a client-error status, not the claimed server-side (5xx)
failure — carrying the raw error message. -/
theorem c9_counterexample :
    postChannel "abc" (some "11111111111111111111111111111112")
      (.valid { blinks := [{
        route := "/api/abc"
        channelName := "abc"
        description := "abcdefghij"
        fee := 1
        coverImage := "https://example.com/default-icon.png"
        publicKey := "11111111111111111111111111111111"
        createdAt := "t"
        telegramLink := "https://t.me/x"
        link := "https://blink-back.onrender.com/api/abc" }] })
      { balance := .ok 2000000000, latestBlockhash := .error "ledger went down" } =
      .failed 400 "ledger went down" ∧ ¬(500 ≤ 400) := by decide

/-- Witness for the amended C9 at the same concrete configuration. -/
theorem c9_witness :
    postChannel "abc" (some "11111111111111111111111111111112")
      (.valid { blinks := [{
        route := "/api/abc"
        channelName := "abc"
        description := "abcdefghij"
        fee := 1
        coverImage := "https://example.com/default-icon.png"
        publicKey := "11111111111111111111111111111111"
        createdAt := "t"
        telegramLink := "https://t.me/x"
        link := "https://blink-back.onrender.com/api/abc" }] })
      { balance := .ok 3000000000, latestBlockhash := .error "timeout" } =
      .failed 400 "timeout" :=
  @c9_blockhash_failure "abc" "11111111111111111111111111111112"
    (.valid { blinks := [{
        route := "/api/abc"
        channelName := "abc"
        description := "abcdefghij"
        fee := 1
        coverImage := "https://example.com/default-icon.png"
        publicKey := "11111111111111111111111111111111"
        createdAt := "t"
        telegramLink := "https://t.me/x"
        link := "https://blink-back.onrender.com/api/abc" }] })
    { balance := .ok 3000000000, latestBlockhash := .error "timeout" }
    { route := "/api/abc"
      channelName := "abc"
      description := "abcdefghij"
      fee := 1
      coverImage := "https://example.com/default-icon.png"
      publicKey := "11111111111111111111111111111111"
      createdAt := "t"
      telegramLink := "https://t.me/x"
      link := "https://blink-back.onrender.com/api/abc" }
    3000000000 "timeout"
    (by decide) (by decide) (by decide) (by decide) rfl (by decide) rfl

/-- C10: every whitespace-only string of 3 to 50 characters passes
channel-name validation; every whitespace-only name derives the same
content-free route `'/api/' + '-'`; and once a record with that route
exists, registering any whitespace-only name can never succeed and leaves
the store unchanged — so at most one whitespace-only channel can ever
exist. -/
theorem c10_ws_only_names (s : String) (h3 : 3 ≤ s.length) (h50 : s.length ≤ 50)
    (hws : ∀ c ∈ s.toList, isJsWs c = true) :
    validateChannelName s = true ∧ deriveRoute s = "/api/-" ∧
    (∀ (r : BlinkRequest) (fc : FileContent) (w : WriteOutcome) (now : String),
      r.channelName = s →
      (∃ b ∈ (readData fc).blinks, b.route = "/api/-") →
      (register r fc w now).2 = fc ∧
        ∀ rt cn, (register r fc w now).1 ≠ .created rt cn) := by
  have hne : s.toList ≠ [] := by
    intro h0
    have : s.length = 0 := by
      show s.toList.length = 0
      rw [h0]
      rfl
    omega
  have hroute : deriveRoute s = "/api/-" := deriveRoute_all_ws hne hws
  refine ⟨?_, hroute, ?_⟩
  · unfold validateChannelName
    simp only [Bool.and_eq_true, decide_eq_true_eq, List.all_eq_true]
    refine ⟨⟨h3, h50⟩, ?_⟩
    intro x hx
    unfold isNameChar
    rw [hws x hx]
    simp
  · intro r fc w now hname hdup
    have hany : ((readData fc).blinks.any
        (fun b => b.route == deriveRoute r.channelName)) = true := by
      rw [List.any_eq_true]
      obtain ⟨b, hb, hbr⟩ := hdup
      refine ⟨b, hb, ?_⟩
      rw [hname, hroute]
      simp [hbr]
    have hnever : ∀ rt cn, (register r fc w now).1 ≠ .created rt cn := by
      intro rt cn hcre
      have heq : register r fc w now = (.created rt cn, (register r fc w now).2) := by
        rw [← hcre]
      obtain ⟨pk, _, hany0, _, _, _, _⟩ := register_created_inv heq
      rw [hany0] at hany
      simp at hany
    exact ⟨register_snd_eq_of_any w now hany, hnever⟩

/-- Witness for C10: the three-space name passes validation, derives the
content-free route, and cannot be registered on top of an existing record
with that route. -/
theorem c10_witness :
    validateChannelName "   " = true ∧ deriveRoute "   " = "/api/-" ∧
    ((register
      { channelName := "   "
        description := "abcdefghij"
        fee := 1
        publicKey := "11111111111111111111111111111111"
        coverImage := none
        telegramLink := "https://t.me/x" }
      (.valid { blinks := [{
        route := "/api/-"
        channelName := " "
        description := "abcdefghij"
        fee := 1
        coverImage := "https://example.com/default-icon.png"
        publicKey := "11111111111111111111111111111111"
        createdAt := "t"
        telegramLink := "https://t.me/x"
        link := "https://blink-back.onrender.com/api/-" }] })
      .success "t2").2 =
      (.valid { blinks := [{
        route := "/api/-"
        channelName := " "
        description := "abcdefghij"
        fee := 1
        coverImage := "https://example.com/default-icon.png"
        publicKey := "11111111111111111111111111111111"
        createdAt := "t"
        telegramLink := "https://t.me/x"
        link := "https://blink-back.onrender.com/api/-" }] }) ∧
      ∀ rt cn, (register
      { channelName := "   "
        description := "abcdefghij"
        fee := 1
        publicKey := "11111111111111111111111111111111"
        coverImage := none
        telegramLink := "https://t.me/x" }
      (.valid { blinks := [{
        route := "/api/-"
        channelName := " "
        description := "abcdefghij"
        fee := 1
        coverImage := "https://example.com/default-icon.png"
        publicKey := "11111111111111111111111111111111"
        createdAt := "t"
        telegramLink := "https://t.me/x"
        link := "https://blink-back.onrender.com/api/-" }] })
      .success "t2").1 ≠ .created rt cn) := by
  have H := c10_ws_only_names "   " (by decide) (by decide) (by decide)
  exact ⟨H.1, H.2.1,
    H.2.2
      { channelName := "   "
        description := "abcdefghij"
        fee := 1
        publicKey := "11111111111111111111111111111111"
        coverImage := none
        telegramLink := "https://t.me/x" }
      (.valid { blinks := [{
        route := "/api/-"
        channelName := " "
        description := "abcdefghij"
        fee := 1
        coverImage := "https://example.com/default-icon.png"
        publicKey := "11111111111111111111111111111111"
        createdAt := "t"
        telegramLink := "https://t.me/x"
        link := "https://blink-back.onrender.com/api/-" }] })
      .success "t2" rfl
      ⟨{ route := "/api/-"
         channelName := " "
         description := "abcdefghij"
         fee := 1
         coverImage := "https://example.com/default-icon.png"
         publicKey := "11111111111111111111111111111111"
         createdAt := "t"
         telegramLink := "https://t.me/x"
         link := "https://blink-back.onrender.com/api/-" }, by decide, rfl⟩⟩

end BlinkBack
